import Mathlib

/-!
Shallow embedding of the minca_agent request pipeline.

The embedding follows the Python sources file by file:
- `src/app/state.py`      → `AgentState`, `MensajeMemoria`, `TipoOperacion`
- `src/app/classifier.py` → `clasificar_pregunta` (the Gemini call and the
  `json.loads` of its text are modelled by the oracle `EntradaClasificador`;
  the Pydantic validation of `ClasificacionResult` is `validarClasificacion`)
- `src/tools/db_tools.py` → `consultar_inventario` … `consultar_conteos`,
  `HERRAMIENTAS` (the database is modelled by the oracle `ResultadoDB`)
- `src/app/query_executor.py` → `tiene_error_fatal`, `ejecutar_consultas`
- `src/app/response_generator.py` → `es_saludo`, `generar_respuesta`,
  `_actualizar_memoria`
- `src/app/graph.py`  → `decidir_despues_de_clasificador`, `pipeline`
- `src/main.py`       → `obtener_memoria_sesion`, `guardar_memoria_sesion`,
  `procesar_pregunta`
- `src/utils/gemini.py` → `Proveedor`, `es_error_rate_limit`, `llamar`

External effects (LLM calls, database queries, `uuid.uuid4`, `random.choice`)
are passed in as explicit oracle values, so every definition is executable.
-/

/-- Mirror of the error dicts stored in `AgentState.errores`
(`src/app/state.py`): fields `nodo`, `mensaje`, `recuperable`. -/
structure RegistroError where
  nodo : String
  mensaje : String
  recuperable : Bool
deriving DecidableEq, Repr

/-- Mirror of `MensajeMemoria` in `src/app/state.py`. -/
structure MensajeMemoria where
  rol : String
  contenido : String
deriving DecidableEq, Repr

/-- Mirror of the `TipoOperacion` enum in `src/app/state.py`. -/
inductive TipoOperacion where
  | lectura
  | insertar
  | actualizar
  | eliminar
deriving DecidableEq, Repr

/-- A database row, as produced by `dict(zip(columnas, row))` in
`src/tools/db_tools.py`: an ordered mapping from column name to a scalar
rendered as text. The claims never inspect row contents. -/
abbrev Fila := List (String × String)

/-- Mirror of the dicts appended to `AgentState.contexto_db`: fields
`fuente` and `datos`. -/
structure Bloque where
  fuente : String
  datos : List Fila
deriving DecidableEq, Repr

/-- Mirror of `AgentState` in `src/app/state.py`, with the same defaults. -/
structure AgentState where
  pregunta_actual : String := ""
  memoria : List MensajeMemoria := []
  intenciones : List String := []
  tipo_operacion : TipoOperacion := .lectura
  contexto_db : List Bloque := []
  contexto_rag : List Bloque := []
  confirmacion_usuario : Bool := false
  errores : List RegistroError := []
  reintentos_restantes : Int := 2
  respuesta_final : String := ""
deriving DecidableEq, Repr

/-! ### String helpers mirroring the Python string operations used -/

/-- Predicate `empieza sub l` is true when `sub` is an initial segment of `l`. -/
def empieza : List Char → List Char → Bool
  | [], _ => true
  | _ :: _, [] => false
  | a :: as, b :: bs => a == b && empieza as bs

/-- Substring test on character lists (Python `sub in s`). -/
def contieneLista (sub : List Char) : List Char → Bool
  | [] => sub.isEmpty
  | b :: bs => empieza sub (b :: bs) || contieneLista sub bs

/-- Python `sub in s` for strings. -/
def contiene (sub s : String) : Bool :=
  contieneLista sub.data s.data

/-- Python lowercasing of one character, as a sequence (`str.lower()` can
expand: dotted capital I becomes `i` plus combining dot above). Mapped
exactly: ASCII `A`-`Z`, the Latin-1 uppercase block U+00C0-U+00DE except
the multiplication sign U+00D7 (all map by adding 0x20), and the U+0130
expansion. These are every code point whose Python lowercase output
contains a character occurring in the greeting token list, so predicates
over those tokens agree with the source on all inputs; case mappings of
other scripts (which never produce Latin letters) are approximated by the
identity, and the Greek final-sigma context rule is not modelled. -/
def aMinuscula (c : Char) : List Char :=
  if 65 ≤ c.toNat && c.toNat ≤ 90 then [Char.ofNat (c.toNat + 32)]
  else if c.toNat == 0x130 then [Char.ofNat 0x69, Char.ofNat 0x307]
  else if 0xC0 ≤ c.toNat && c.toNat ≤ 0xDE && c.toNat != 0xD7 then
    [Char.ofNat (c.toNat + 32)]
  else [c]

/-- Python `str.lower()`. -/
def minusculas (s : String) : String :=
  String.mk (s.data.map aMinuscula).flatten

/-- Python string whitespace: the exact set of code points `str.isspace()`
accepts, which `str.strip()` and no-argument `str.split()` use. -/
def esEspacioPython (c : Char) : Bool :=
  (9 ≤ c.toNat && c.toNat ≤ 13) || (0x1C ≤ c.toNat && c.toNat ≤ 0x1F) ||
  c.toNat == 0x20 || c.toNat == 0x85 || c.toNat == 0xA0 ||
  c.toNat == 0x1680 || (0x2000 ≤ c.toNat && c.toNat ≤ 0x200A) ||
  c.toNat == 0x2028 || c.toNat == 0x2029 || c.toNat == 0x202F ||
  c.toNat == 0x205F || c.toNat == 0x3000

/-- Python `str.strip()`. -/
def recortar (s : String) : String :=
  String.mk (((s.data.dropWhile esEspacioPython).reverse.dropWhile
    esEspacioPython).reverse)

/-- Helper for `palabras`: accumulates the current word (reversed). -/
def palabrasAux (actual : List Char) : List Char → List String
  | [] => if actual.isEmpty then [] else [String.mk actual.reverse]
  | c :: resto =>
    if esEspacioPython c then
      if actual.isEmpty then palabrasAux [] resto
      else String.mk actual.reverse :: palabrasAux [] resto
    else palabrasAux (c :: actual) resto

/-- Python `str.split()` with no arguments: split on whitespace runs,
dropping empty pieces. -/
def palabras (s : String) : List String :=
  palabrasAux [] s.data

/-! ### Classifier (`src/app/classifier.py`) -/

/-- JSON values, the possible results of `json.loads` on the model text. -/
inductive JVal where
  | nulo
  | booleano (b : Bool)
  | numero (n : Int)
  | cadena (s : String)
  | lista (xs : List JVal)
  | objeto (campos : List (String × JVal))

/-- Oracle for the classifier stage: either the Gemini call raised
`RuntimeError` (`falla`), or it returned text; `texto none` means the
(code-fence-stripped) text was not valid JSON (`json.JSONDecodeError`),
`texto (some v)` means `json.loads` produced `v`. -/
inductive EntradaClasificador where
  | falla (mensaje : String)
  | texto (json : Option JVal)

/-- Last-wins field lookup, matching how `json.loads` resolves duplicate
keys inside one JSON object. -/
def buscarCampo (campos : List (String × JVal)) (clave : String) : Option JVal :=
  campos.foldl (fun acc par => if par.1 = clave then some par.2 else acc) none

/-- Extract a list of strings, failing when any element is not a string
(Pydantic `list[str]` accepts only string elements and does not coerce). -/
def cadenasDe : List JVal → Option (List String)
  | [] => some []
  | .cadena s :: resto => (cadenasDe resto).map (s :: ·)
  | _ => none

/-- Pydantic validation of `ClasificacionResult` (`intenciones: list[str]`,
`tipo_operacion: str`): both fields must be present with those shapes.
There is no non-emptiness constraint on `intenciones`. -/
def validarClasificacion (campos : List (String × JVal)) :
    Option (List String × String) :=
  match buscarCampo campos "intenciones", buscarCampo campos "tipo_operacion" with
  | some (.lista xs), some (.cadena t) =>
    match cadenasDe xs with
    | some ints => some (ints, t)
    | none => none
  | _, _ => none

/-- Conversion `TipoOperacion(texto)`: `ValueError` (modelled as `none`) when the text
is not one of the four enum literals. -/
def tipoOperacionDesde (s : String) : Option TipoOperacion :=
  if s = "lectura" then some .lectura
  else if s = "insertar" then some .insertar
  else if s = "actualizar" then some .actualizar
  else if s = "eliminar" then some .eliminar
  else none

/-- Function `clasificar_pregunta` from `src/app/classifier.py`. The `.error` result
models the uncaught `TypeError` raised by `ClasificacionResult(**datos)`
when `datos` is valid JSON but not an object (`except` clauses only catch
`JSONDecodeError`, `ValidationError`, `ValueError`, `KeyError`,
`RuntimeError`). -/
def clasificar_pregunta (state : AgentState) (entrada : EntradaClasificador) :
    Except String AgentState :=
  match entrada with
  | .falla mensaje =>
    .ok { state with
      errores := state.errores ++ [⟨"clasificador", mensaje, false⟩] }
  | .texto none =>
    .ok { state with
      intenciones := ["no_reconocida"],
      errores := state.errores ++
        [⟨"clasificador", "El modelo no retornó JSON válido en la clasificación", true⟩] }
  | .texto (some (.objeto campos)) =>
    match validarClasificacion campos with
    | none =>
      .ok { state with
        intenciones := ["no_reconocida"],
        errores := state.errores ++
          [⟨"clasificador", "Estructura de clasificación inválida", true⟩] }
    | some (ints, tipoTexto) =>
      match tipoOperacionDesde tipoTexto with
      | some tipo =>
        .ok { state with intenciones := ints, tipo_operacion := tipo }
      | none =>
        .ok { state with
          intenciones := ["no_reconocida"],
          errores := state.errores ++
            [⟨"clasificador", "Error procesando clasificación: tipo de operación no reconocido", true⟩] }
  | .texto (some _) =>
    .error "TypeError: el argumento de doble asterisco debe ser un mapeo"

/-! ### Database tools (`src/tools/db_tools.py`) -/

/-- Oracle for one database query made by a tool: either the rows it
produced (already shaped as the tool's `datos` list) or the exception
message raised by the connection/query. -/
inductive ResultadoDB where
  | ok (filas : List Fila)
  | excepcion (mensaje : String)
deriving DecidableEq, Repr

/-- Common shape of `consultar_inventario`, `consultar_garantias`,
`consultar_movimientos_tecnicos`, `consultar_solicitudes` and
`consultar_repuestos`: on success append one block to `contexto_db`; on any
exception append one recoverable error to `errores`. -/
def herramientaSimple (fuente nodo prefijoError : String)
    (state : AgentState) (db : ResultadoDB) : AgentState :=
  match db with
  | .ok filas =>
    { state with contexto_db := state.contexto_db ++ [⟨fuente, filas⟩] }
  | .excepcion m =>
    { state with errores := state.errores ++ [⟨nodo, prefijoError ++ m, true⟩] }

def consultar_inventario : AgentState → ResultadoDB → AgentState :=
  herramientaSimple "inventario" "consulta_inventario"
    "Error consultando inventario: "

def consultar_garantias : AgentState → ResultadoDB → AgentState :=
  herramientaSimple "garantias" "consulta_garantias"
    "Error consultando garantías: "

def consultar_movimientos_tecnicos : AgentState → ResultadoDB → AgentState :=
  herramientaSimple "movimientos_tecnicos" "consulta_movimientos_tecnicos"
    "Error consultando movimientos técnicos: "

def consultar_solicitudes : AgentState → ResultadoDB → AgentState :=
  herramientaSimple "solicitudes" "consulta_solicitudes"
    "Error consultando solicitudes: "

def consultar_repuestos : AgentState → ResultadoDB → AgentState :=
  herramientaSimple "repuestos" "consulta_repuestos"
    "Error consultando repuestos: "

/-- Function `consultar_conteos` from `src/tools/db_tools.py`. The source assigns
the first query result to `rows_conteos` but then evaluates
`cursor.fetchall()` where `cursor` was never defined, so a `NameError` is
raised before either `contexto_db.append` is reached; when the query itself
raises first, that exception is caught instead. Every path therefore lands
in the `except` branch, appending one recoverable error and no block. -/
def consultar_conteos (state : AgentState) (db : ResultadoDB) : AgentState :=
  let mensaje :=
    match db with
    | .excepcion m => m
    | .ok _ => "name \x27cursor\x27 is not defined"
  { state with errores := state.errores ++
      [⟨"consulta_conteos", "Error consultando conteos: " ++ mensaje, true⟩] }

/-- The `HERRAMIENTAS` dispatch table from `src/tools/db_tools.py`. -/
def HERRAMIENTAS (nombre : String) :
    Option (AgentState → ResultadoDB → AgentState) :=
  if nombre = "inventario" then some consultar_inventario
  else if nombre = "garantias" then some consultar_garantias
  else if nombre = "movimientos_tecnicos" then some consultar_movimientos_tecnicos
  else if nombre = "solicitudes" then some consultar_solicitudes
  else if nombre = "conteos" then some consultar_conteos
  else if nombre = "repuestos" then some consultar_repuestos
  else none

/-! ### Query executor (`src/app/query_executor.py`) -/

/-- Function `tiene_error_fatal` from `src/app/query_executor.py` (also duplicated
in `src/app/response_generator.py`). -/
def tiene_error_fatal (state : AgentState) : Bool :=
  state.errores.any (fun e => !e.recuperable)

/-- Dispatch `HERRAMIENTAS[intencion](state)`: run the tool registered for `nombre`
on the current shared state. Unmapped names (filtered out before the loop)
leave the state unchanged. -/
def aplicarHerramienta (nombre : String) (state : AgentState)
    (db : String → ResultadoDB) : AgentState :=
  match HERRAMIENTAS nombre with
  | some h => h state (db nombre)
  | none => state

/-- The `for intencion in intenciones_validas` loop of `ejecutar_consultas`.
Crucial fidelity point: each tool receives the *same* state object, mutates
it in place and returns it, so `resultado.contexto_db` / `resultado.errores`
are the full current lists, and the accumulators extend with those full
lists (`contexto_acumulado.extend(resultado.contexto_db)`;
`errores_acumulados.extend(resultado.errores)` guarded by
`if resultado.errores`). -/
def bucleConsultas (db : String → ResultadoDB) :
    List String → AgentState → List Bloque → List RegistroError →
    List Bloque × List RegistroError
  | [], _, ctx, errs => (ctx, errs)
  | nombre :: resto, state, ctx, errs =>
    let resultado := aplicarHerramienta nombre state db
    let ctx2 := ctx ++ resultado.contexto_db
    let errs2 := if resultado.errores.isEmpty then errs
                 else errs ++ resultado.errores
    bucleConsultas db resto resultado ctx2 errs2

/-- Python `repr` of a list of strings, as interpolated by the f-string
in the "no tools" error message. -/
def reprListaPython (xs : List String) : String :=
  "[" ++ String.intercalate ", " (xs.map (fun s => "\x27" ++ s ++ "\x27")) ++ "]"

/-- The dict returned by `ejecutar_consultas`: only the keys present are
merged back into the graph state (LangGraph overwrites per returned key). -/
structure DeltaEjecutor where
  contexto_db : Option (List Bloque) := none
  errores : Option (List RegistroError) := none

/-- Function `ejecutar_consultas` from `src/app/query_executor.py`. -/
def ejecutar_consultas (state : AgentState) (db : String → ResultadoDB) :
    DeltaEjecutor :=
  if tiene_error_fatal state then {}
  else if state.intenciones = ["no_reconocida"] then {}
  else
    let intenciones_validas :=
      state.intenciones.filter (fun i => (HERRAMIENTAS i).isSome)
    if intenciones_validas.isEmpty then
      { errores := some (state.errores ++
          [⟨"ejecutor_consultas",
            "No hay herramientas para las intenciones detectadas: " ++
              reprListaPython state.intenciones, true⟩]) }
    else
      let par := bucleConsultas db intenciones_validas state [] state.errores
      { contexto_db := some par.1, errores := some par.2 }

/-- Fold an executor delta into the state (LangGraph merge: a returned key
overwrites the field, an absent key leaves it unchanged). -/
def aplicarDelta (state : AgentState) (delta : DeltaEjecutor) : AgentState :=
  { state with
    contexto_db := delta.contexto_db.getD state.contexto_db,
    errores := delta.errores.getD state.errores }

/-- Number of data-fetch capability invocations `ejecutar_consultas` makes:
one per element of `intenciones_validas`, zero on the short-circuit paths.
(Instrumentation for the claims; the source has no such counter.) -/
def llamadasFetchDe (state : AgentState) : Nat :=
  if tiene_error_fatal state then 0
  else if state.intenciones = ["no_reconocida"] then 0
  else (state.intenciones.filter (fun i => (HERRAMIENTAS i).isSome)).length

/-! ### Response generator (`src/app/response_generator.py`) -/

def MAX_MENSAJES_MEMORIA : Nat := 10

/-- The greeting token list of `es_saludo`. -/
def SALUDOS : List String :=
  ["hola", "buenos días", "buenas tardes", "buenas noches",
   "buen día", "buena tarde", "buena noche",
   "hey", "qué tal", "cómo estás", "saludos",
   "holi", "holaa", "holaaa"]

/-- Function `es_saludo` from `src/app/response_generator.py`: lowercase and strip
the question; more than 5 whitespace-separated words is never a greeting;
otherwise any listed token occurring as a substring makes it one. -/
def es_saludo (pregunta : String) : Bool :=
  let pregunta_lower := recortar (minusculas pregunta)
  if (palabras pregunta_lower).length > 5 then false
  else SALUDOS.any (fun s => contiene s pregunta_lower)

def RESPUESTA_NO_RECONOCIDA : String :=
  "Disculpa, no estoy seguro de haber entendido bien tu pregunta. " ++
  "Puedo ayudarte con inventario, garantías, movimientos de técnicos, " ++
  "solicitudes entre bodegas, conteos de inventario o información de repuestos. " ++
  "¿Podrías reformular tu pregunta con un poco más de detalle?"

/-- The fixed apology of the fatal-error branch of `generar_respuesta`. -/
def RESPUESTA_ERROR_FATAL : String :=
  "Lamento mucho, ocurrió un problema interno al procesar tu pregunta. " ++
  "Por favor, intenta de nuevo en un momento."

/-- The fixed fallback of the `except` branches of `generar_respuesta`. -/
def RESPUESTA_FALLA_GENERACION : String :=
  "Tuve problema al generar la respuesta, pero las consultas sí se completaron. " ++
  "Por favor, intenta de nuevo."

/-- The `saludos_respuesta` pool of `generar_respuesta` (4 variants). -/
def saludos_respuesta : List String :=
  ["¡Hola! Soy Dynamo, tu asistente de Minca Electric. Estoy aquí para ayudarte con información sobre inventario, garantías, solicitudes y todo lo relacionado con los repuestos. ¿En qué puedo ayudarte hoy?",
   "¡Hola! Bienvenido. Soy Dynamo y puedo ayudarte a consultar el inventario, revisar garantías, ver solicitudes entre bodegas y mucho más. ¿Qué necesitas saber?",
   "¡Hola! Un gusto saludarte. Puedo ayudarte con todo lo relacionado a repuestos: inventario, garantías, movimientos técnicos, solicitudes y conteos. ¿En qué te puedo asistir?",
   "¡Hola! Soy Dynamo. Puedo ayudarte a buscar información sobre repuestos, consultar inventarios, revisar garantías o lo que necesites. ¿Qué te gustaría saber?"]

/-- Selection `random.choice(saludos_respuesta)` with the random draw provided as an
oracle index (reduced modulo the pool size). -/
def elegirSaludo (eleccion : Nat) : String :=
  saludos_respuesta.getD (eleccion % saludos_respuesta.length) ""

/-- Function `_actualizar_memoria` from `src/app/response_generator.py`: append the
user turn, append the agent turn when `respuesta_final` is non-empty, then
keep only the last `MAX_MENSAJES_MEMORIA` messages. -/
def _actualizar_memoria (state : AgentState) : AgentState :=
  let mem1 := state.memoria ++ [⟨"usuario", state.pregunta_actual⟩]
  let mem2 := if state.respuesta_final ≠ "" then
                mem1 ++ [⟨"agente", state.respuesta_final⟩]
              else mem1
  let mem3 := if mem2.length > MAX_MENSAJES_MEMORIA then
                mem2.drop (mem2.length - MAX_MENSAJES_MEMORIA)
              else mem2
  { state with memoria := mem3 }

/-- Oracle for a `gemini.llamar` call made by the response generator:
either the returned text or the message of the raised exception (both the
`RuntimeError` branch and the generic `except Exception` branch of the
source produce the same fixed answer plus one recoverable error; they
differ only in how the stored message is formatted, which the oracle
message absorbs). -/
inductive ResLLM where
  | ok (texto : String)
  | falla (mensaje : String)
deriving DecidableEq, Repr

/-- Function `generar_respuesta` from `src/app/response_generator.py`, returning the
updated state and the number of text-completion calls this stage made
(0 on the greeting / fatal / unrecognized branches, 1 otherwise). -/
def generar_respuesta (state : AgentState) (llm : ResLLM) (eleccion : Nat) :
    AgentState × Nat :=
  if es_saludo state.pregunta_actual then
    (_actualizar_memoria { state with respuesta_final := elegirSaludo eleccion }, 0)
  else if tiene_error_fatal state then
    ({ state with respuesta_final := RESPUESTA_ERROR_FATAL }, 0)
  else if state.intenciones = ["no_reconocida"] then
    (_actualizar_memoria { state with respuesta_final := RESPUESTA_NO_RECONOCIDA }, 0)
  else
    match llm with
    | .ok texto =>
      (_actualizar_memoria { state with respuesta_final := texto }, 1)
    | .falla mensaje =>
      (_actualizar_memoria
        { state with
          respuesta_final := RESPUESTA_FALLA_GENERACION,
          errores := state.errores ++ [⟨"generador_respuesta", mensaje, true⟩] }, 1)

/-! ### Graph (`src/app/graph.py`) -/

/-- The conditional edge after the classifier. -/
def decidir_despues_de_clasificador (state : AgentState) : String :=
  if tiene_error_fatal state then "generador_respuesta"
  else "ejecutor_consultas"

/-- All external effects of one graph run, as oracles. -/
structure Entradas where
  clasificador : EntradaClasificador
  db : String → ResultadoDB
  generador : ResLLM
  eleccion : Nat

/-- Result of a graph run: the final state plus call counters for the
data-fetch capability and the two text-completion call sites. -/
structure Ejecucion where
  estado : AgentState
  llamadasFetch : Nat
  llamadasLLMClasificador : Nat
  llamadasLLMGenerador : Nat
deriving DecidableEq, Repr

/-- One run of the compiled graph (`construir_grafo` in `src/app/graph.py`):
classifier, then the conditional edge, then (possibly) the executor whose
returned delta is merged per key, then the generator. The classifier always
attempts exactly one text-completion call. The `.error` case propagates the
uncaught `TypeError` of the classifier. -/
def pipeline (inicial : AgentState) (ent : Entradas) : Except String Ejecucion :=
  match clasificar_pregunta inicial ent.clasificador with
  | .error m => .error m
  | .ok s1 =>
    if decidir_despues_de_clasificador s1 = "ejecutor_consultas" then
      let s2 := aplicarDelta s1 (ejecutar_consultas s1 ent.db)
      let par := generar_respuesta s2 ent.generador ent.eleccion
      .ok ⟨par.1, llamadasFetchDe s1, 1, par.2⟩
    else
      let par := generar_respuesta s1 ent.generador ent.eleccion
      .ok ⟨par.1, 0, 1, par.2⟩

/-! ### HTTP driver and session store (`src/main.py`) -/

/-- The `_sesiones` dict: an insertion-ordered map from session id to the
session history. -/
abbrev Almacen := List (String × List MensajeMemoria)

def MAX_SESIONES : Nat := 100

/-- Python dict assignment `d[k] = v`: update in place when the key exists
(keeping its position), append at the end otherwise. -/
def asignarClave (almacen : Almacen) (clave : String)
    (valor : List MensajeMemoria) : Almacen :=
  if (almacen.lookup clave).isSome then
    almacen.map (fun par => if par.1 = clave then (clave, valor) else par)
  else almacen ++ [(clave, valor)]

/-- The creation path of `obtener_memoria_sesion`: mint a new id (supplied
as the oracle `nuevo_id`, modelling `uuid.uuid4`), store an empty history,
then evict the oldest sessions while over `MAX_SESIONES`. -/
def crearSesion (almacen : Almacen) (nuevo_id : String) :
    String × List MensajeMemoria × Almacen :=
  let con := asignarClave almacen nuevo_id []
  let con2 := if con.length > MAX_SESIONES then
                con.drop (con.length - MAX_SESIONES)
              else con
  (nuevo_id, [], con2)

/-- Function `obtener_memoria_sesion` from `src/main.py`. Note the Python truthiness
test `if session_id and session_id in _sesiones`: an empty-string id is
treated like a missing one. -/
def obtener_memoria_sesion (almacen : Almacen) (session_id : Option String)
    (nuevo_id : String) : String × List MensajeMemoria × Almacen :=
  match session_id with
  | some s =>
    if s != "" && (almacen.lookup s).isSome then
      (s, (almacen.lookup s).getD [], almacen)
    else crearSesion almacen nuevo_id
  | none => crearSesion almacen nuevo_id

/-- Function `guardar_memoria_sesion` from `src/main.py`. -/
def guardar_memoria_sesion (almacen : Almacen) (session_id : String)
    (memoria : List MensajeMemoria) : Almacen :=
  asignarClave almacen session_id memoria

/-- Body of the `/procesar-pregunta` request. -/
structure Peticion where
  pregunta : String
  session_id : Option String := none

/-- Body of the `/procesar-pregunta` response. -/
structure Respuesta where
  respuesta : String
  session_id : String
  intenciones_detectadas : List String
  errores : List RegistroError
deriving DecidableEq, Repr

/-- Function `procesar_pregunta` from `src/main.py` (authentication, which only
gates entry, is outside the model). `.error` covers the 400 on an empty
question and an exception escaping the graph. -/
def procesar_pregunta (almacen : Almacen) (cuerpo : Peticion) (ent : Entradas)
    (nuevo_id : String) : Except String (Respuesta × Almacen) :=
  let pregunta := recortar cuerpo.pregunta
  if pregunta = "" then .error "400: La pregunta no puede estar vacía"
  else
    let tri := obtener_memoria_sesion almacen cuerpo.session_id nuevo_id
    let inicial : AgentState := { pregunta_actual := pregunta, memoria := tri.2.1 }
    match pipeline inicial ent with
    | .error m => .error m
    | .ok ej =>
      let almacen2 := guardar_memoria_sesion tri.2.2 tri.1 ej.estado.memoria
      .ok (⟨ej.estado.respuesta_final, tri.1, ej.estado.intenciones,
            ej.estado.errores⟩, almacen2)

/-! ### LLM client with provider fallback (`src/utils/gemini.py`) -/

/-- Oracle for what one provider does if it is attempted on this call. -/
inductive SalidaProveedor where
  | ok (texto : String)
  | excepcion (mensaje : String)
deriving DecidableEq, Repr

/-- One entry of `LLMClient.providers`: its name, its `active` flag and its
behaviour on this call. -/
structure Proveedor where
  nombre : String
  activo : Bool
  salida : SalidaProveedor
deriving DecidableEq, Repr

/-- The keyword list of `_is_rate_limit_error`. -/
def CLAVES_RATE_LIMIT : List String :=
  ["429", "quota", "rate_limit", "resource_exhausted",
   "too many requests", "limit exceeded"]

/-- Function `_is_rate_limit_error` from `src/utils/gemini.py`. -/
def es_error_rate_limit (mensaje : String) : Bool :=
  CLAVES_RATE_LIMIT.any (fun k => contiene k (minusculas mensaje))

def MENSAJE_TODOS_AGOTADOS : String :=
  "Todos los proveedores de LLM alcanzaron sus límites. " ++
  "El servicio estará disponible nuevamente en unas horas. " ++
  "Considera agregar más API keys o upgrade a plan pagado."

/-- The final `raise` of `llamar` when the provider loop falls through. -/
def mensajeErrorFinal (ultimo : Option String) : String :=
  match ultimo with
  | some m =>
    if es_error_rate_limit m then MENSAJE_TODOS_AGOTADOS
    else "Error en todos los proveedores. Último error: " ++ m
  | none => "Error en todos los proveedores. Último error: None"

/-- The provider loop of `llamar`: skip inactive providers; on success
return the text; on a rate-limit-class failure mark the provider inactive
and keep iterating (recording the error as `last_error`); on any other
failure raise immediately. Returns the updated provider list, the names
attempted in order, and the overall outcome. -/
def llamarBucle : List Proveedor → Option String →
    List Proveedor × List String × Except String String
  | [], ultimo => ([], [], .error (mensajeErrorFinal ultimo))
  | p :: resto, ultimo =>
    if p.activo then
      match p.salida with
      | .ok texto => (p :: resto, [p.nombre], .ok texto)
      | .excepcion m =>
        if es_error_rate_limit m then
          let r := llamarBucle resto (some m)
          ({ p with activo := false } :: r.1, p.nombre :: r.2.1, r.2.2)
        else (p :: resto, [p.nombre],
              .error ("Error en " ++ p.nombre ++ ": " ++ m))
    else
      let r := llamarBucle resto ultimo
      (p :: r.1, r.2.1, r.2.2)

/-- Method `LLMClient.llamar` from `src/utils/gemini.py` (prompt construction and
model selection do not affect the control flow modelled here). -/
def llamar (proveedores : List Proveedor) :
    List Proveedor × List String × Except String String :=
  llamarBucle proveedores none

/-! ### Observation functions used by the claims -/

/-- The error records one tool invocation emits (appends) on its own:
the tool run on a state with empty `errores`. -/
def registroEmitido (nombre : String) (r : ResultadoDB) : List RegistroError :=
  (aplicarHerramienta nombre {} (fun _ => r)).errores

/-- The blocks one tool invocation emits (appends) on its own. -/
def bloquesEmitidos (nombre : String) (r : ResultadoDB) : List Bloque :=
  (aplicarHerramienta nombre {} (fun _ => r)).contexto_db

/-- The state after running the tools of `l` sequentially on the shared
state, as the executor loop does. -/
def estadoTras (db : String → ResultadoDB) (l : List String)
    (st : AgentState) : AgentState :=
  l.foldl (fun s n => aplicarHerramienta n s db) st

/-- Concatenated error emissions of a tool list. -/
def emitidosErr (db : String → ResultadoDB) : List String → List RegistroError
  | [] => []
  | n :: resto => registroEmitido n (db n) ++ emitidosErr db resto

/-- Concatenated block emissions of a tool list. -/
def emitidosCtx (db : String → ResultadoDB) : List String → List Bloque
  | [] => []
  | n :: resto => bloquesEmitidos n (db n) ++ emitidosCtx db resto

/-- The container `errores` after the executor delta is merged back. -/
def erroresTrasEjecutor (st : AgentState) (db : String → ResultadoDB) :
    List RegistroError :=
  (aplicarDelta st (ejecutar_consultas st db)).errores

/-- The container `contexto_db` after the executor delta is merged back. -/
def contextoTrasEjecutor (st : AgentState) (db : String → ResultadoDB) :
    List Bloque :=
  (aplicarDelta st (ejecutar_consultas st db)).contexto_db

/-- A classifier oracle describing a well-formed model reply with the given
categories and `tipo_operacion = "lectura"`. -/
def clasificacionDe (ints : List String) : EntradaClasificador :=
  .texto (some (.objeto
    [("intenciones", .lista (ints.map .cadena)),
     ("tipo_operacion", .cadena "lectura")]))

/-- Classifier oracles under which `clasificar_pregunta` does not raise the
uncaught `TypeError` (every outcome except valid JSON that is not an
object). -/
def sinReventar : EntradaClasificador → Bool
  | .texto (some (.objeto _)) => true
  | .texto (some _) => false
  | _ => true

/-- Final state of a graph run (`{}` is unreachable filler for the
propagated-exception case). -/
def estadoDe : Except String Ejecucion → AgentState
  | .ok ej => ej.estado
  | .error _ => {}

/-- Data-fetch invocation count of a graph run. -/
def fetchLlamadasDe : Except String Ejecucion → Nat
  | .ok ej => ej.llamadasFetch
  | .error _ => 0

/-- Text-completion calls made by the classifier in a graph run. -/
def llmClasificadorDe : Except String Ejecucion → Nat
  | .ok ej => ej.llamadasLLMClasificador
  | .error _ => 0

/-- Text-completion calls made by the response generator in a graph run. -/
def llmGeneradorDe : Except String Ejecucion → Nat
  | .ok ej => ej.llamadasLLMGenerador
  | .error _ => 0

/-- Resulting state of a classifier run (filler on the raised path). -/
def estadoClasificadorDe : Except String AgentState → AgentState
  | .ok s => s
  | .error _ => {}

/-! ### Helper lemmas about the tools and the executor loop -/

theorem aplicarHerramienta_errores (nombre : String) (st : AgentState)
    (db : String → ResultadoDB) :
    (aplicarHerramienta nombre st db).errores =
      st.errores ++ registroEmitido nombre (db nombre) := by
  unfold registroEmitido
  unfold aplicarHerramienta HERRAMIENTAS
  split_ifs <;> cases db nombre <;>
    simp [consultar_inventario, consultar_garantias,
      consultar_movimientos_tecnicos, consultar_solicitudes,
      consultar_repuestos, consultar_conteos, herramientaSimple]

theorem aplicarHerramienta_contexto (nombre : String) (st : AgentState)
    (db : String → ResultadoDB) :
    (aplicarHerramienta nombre st db).contexto_db =
      st.contexto_db ++ bloquesEmitidos nombre (db nombre) := by
  unfold bloquesEmitidos
  unfold aplicarHerramienta HERRAMIENTAS
  split_ifs <;> cases db nombre <;>
    simp [consultar_inventario, consultar_garantias,
      consultar_movimientos_tecnicos, consultar_solicitudes,
      consultar_repuestos, consultar_conteos, herramientaSimple]

theorem estadoTras_errores (db : String → ResultadoDB) (l : List String) :
    ∀ st : AgentState,
      (estadoTras db l st).errores = st.errores ++ emitidosErr db l := by
  induction l with
  | nil => intro st; simp [estadoTras, emitidosErr]
  | cons n resto ih =>
    intro st
    have h1 : estadoTras db (n :: resto) st =
        estadoTras db resto (aplicarHerramienta n st db) := rfl
    rw [h1, ih, aplicarHerramienta_errores]
    simp [emitidosErr]

theorem estadoTras_contexto (db : String → ResultadoDB) (l : List String) :
    ∀ st : AgentState,
      (estadoTras db l st).contexto_db = st.contexto_db ++ emitidosCtx db l := by
  induction l with
  | nil => intro st; simp [estadoTras, emitidosCtx]
  | cons n resto ih =>
    intro st
    have h1 : estadoTras db (n :: resto) st =
        estadoTras db resto (aplicarHerramienta n st db) := rfl
    rw [h1, ih, aplicarHerramienta_contexto]
    simp [emitidosCtx]

theorem bucle_contexto_mem (db : String → ResultadoDB) (l : List String) :
    ∀ (st : AgentState) (ctx : List Bloque) (errs : List RegistroError)
      (b : Bloque),
      b ∈ (bucleConsultas db l st ctx errs).1 ↔
        b ∈ ctx ∨ (l ≠ [] ∧ b ∈ (estadoTras db l st).contexto_db) := by
  induction l with
  | nil => intro st ctx errs b; simp [bucleConsultas]
  | cons n resto ih =>
    intro st ctx errs b
    have h1 : bucleConsultas db (n :: resto) st ctx errs =
        bucleConsultas db resto (aplicarHerramienta n st db)
          (ctx ++ (aplicarHerramienta n st db).contexto_db)
          (if (aplicarHerramienta n st db).errores.isEmpty then errs
           else errs ++ (aplicarHerramienta n st db).errores) := rfl
    have h2 : estadoTras db (n :: resto) st =
        estadoTras db resto (aplicarHerramienta n st db) := rfl
    rw [h1, ih, h2]
    cases resto with
    | nil =>
      simp [estadoTras, List.mem_append]
    | cons m resto2 =>
      rw [estadoTras_contexto]
      constructor
      · rintro (h | h)
        · rcases List.mem_append.mp h with h | h
          · exact Or.inl h
          · exact Or.inr ⟨by simp, List.mem_append.mpr (Or.inl h)⟩
        · exact Or.inr ⟨by simp, h.2⟩
      · rintro (h | h)
        · exact Or.inl (List.mem_append.mpr (Or.inl h))
        · rcases List.mem_append.mp h.2 with h2 | h2
          · exact Or.inl (List.mem_append.mpr (Or.inr h2))
          · exact Or.inr ⟨by simp, List.mem_append.mpr (Or.inr h2)⟩

theorem distinto_por_prefijo (a m b : String) (c : Char)
    (ha : a.data.head? = some c) (hb : b.data.head? ≠ some c) : a ++ m ≠ b := by
  intro h
  apply hb
  rw [← h]
  have hd : (a ++ m).data = a.data ++ m.data := rfl
  rw [hd]
  cases hA : a.data with
  | nil => rw [hA] at ha; simp at ha
  | cons x xs => rw [hA] at ha; simpa using ha

theorem registroEmitido_forma (nombre : String) (r : ResultadoDB)
    (e : RegistroError) (he : e ∈ registroEmitido nombre r) :
    e.recuperable = true ∧ e.nodo = "consulta_" ++ nombre ∧
      ∃ m, e.mensaje = "Error consultando " ++ m := by
  unfold registroEmitido aplicarHerramienta HERRAMIENTAS at he
  split_ifs at he with h1 h2 h3 h4 h5 h6
  · subst h1
    cases r with
    | ok filas => simp [consultar_inventario, herramientaSimple] at he
    | excepcion m =>
      simp [consultar_inventario, herramientaSimple] at he
      subst he
      exact ⟨rfl, rfl, "inventario: " ++ m, rfl⟩
  · subst h2
    cases r with
    | ok filas => simp [consultar_garantias, herramientaSimple] at he
    | excepcion m =>
      simp [consultar_garantias, herramientaSimple] at he
      subst he
      exact ⟨rfl, rfl, "garantías: " ++ m, rfl⟩
  · subst h3
    cases r with
    | ok filas => simp [consultar_movimientos_tecnicos, herramientaSimple] at he
    | excepcion m =>
      simp [consultar_movimientos_tecnicos, herramientaSimple] at he
      subst he
      exact ⟨rfl, rfl, "movimientos técnicos: " ++ m, rfl⟩
  · subst h4
    cases r with
    | ok filas => simp [consultar_solicitudes, herramientaSimple] at he
    | excepcion m =>
      simp [consultar_solicitudes, herramientaSimple] at he
      subst he
      exact ⟨rfl, rfl, "solicitudes: " ++ m, rfl⟩
  · subst h5
    cases r with
    | ok filas =>
      simp [consultar_conteos] at he
      subst he
      exact ⟨rfl, rfl, "conteos: " ++ "name \x27cursor\x27 is not defined", rfl⟩
    | excepcion m =>
      simp [consultar_conteos] at he
      subst he
      exact ⟨rfl, rfl, "conteos: " ++ m, rfl⟩
  · subst h6
    cases r with
    | ok filas => simp [consultar_repuestos, herramientaSimple] at he
    | excepcion m =>
      simp [consultar_repuestos, herramientaSimple] at he
      subst he
      exact ⟨rfl, rfl, "repuestos: " ++ m, rfl⟩
  · simp at he

theorem emitidosErr_origen (db : String → ResultadoDB) (l : List String)
    (e : RegistroError) (he : e ∈ emitidosErr db l) :
    ∃ n ∈ l, e ∈ registroEmitido n (db n) := by
  induction l with
  | nil => simp [emitidosErr] at he
  | cons n resto ih =>
    rw [show emitidosErr db (n :: resto) =
      registroEmitido n (db n) ++ emitidosErr db resto from rfl] at he
    rcases List.mem_append.mp he with h | h
    · exact ⟨n, by simp, h⟩
    · rcases ih h with ⟨p, hp, hmem⟩
      exact ⟨p, by simp [hp], hmem⟩

theorem emitidosCtx_contiene (db : String → ResultadoDB) (l : List String)
    (n : String) (hn : n ∈ l) (b : Bloque)
    (hb : b ∈ bloquesEmitidos n (db n)) : b ∈ emitidosCtx db l := by
  induction l with
  | nil => simp at hn
  | cons p resto ih =>
    rw [show emitidosCtx db (p :: resto) =
      bloquesEmitidos p (db p) ++ emitidosCtx db resto from rfl]
    rcases List.mem_cons.mp hn with h | h
    · subst h; exact List.mem_append.mpr (Or.inl hb)
    · exact List.mem_append.mpr (Or.inr (ih h))

theorem bucle_errores_mem (db : String → ResultadoDB) (l : List String) :
    ∀ (st : AgentState) (ctx : List Bloque) (errs : List RegistroError)
      (e : RegistroError),
      e ∈ (bucleConsultas db l st ctx errs).2 ↔
        e ∈ errs ∨ (l ≠ [] ∧ (estadoTras db l st).errores ≠ [] ∧
          e ∈ (estadoTras db l st).errores) := by
  induction l with
  | nil => intro st ctx errs e; simp [bucleConsultas]
  | cons n resto ih =>
    intro st ctx errs e
    have h1 : bucleConsultas db (n :: resto) st ctx errs =
        bucleConsultas db resto (aplicarHerramienta n st db)
          (ctx ++ (aplicarHerramienta n st db).contexto_db)
          (if (aplicarHerramienta n st db).errores.isEmpty then errs
           else errs ++ (aplicarHerramienta n st db).errores) := rfl
    have h2 : estadoTras db (n :: resto) st =
        estadoTras db resto (aplicarHerramienta n st db) := rfl
    rw [h1, ih, h2, estadoTras_errores]
    by_cases hv : (aplicarHerramienta n st db).errores = []
    · rw [hv]
      cases resto with
      | nil => simp [estadoTras, emitidosErr, hv]
      | cons m resto2 => simp
    · rw [if_neg (by simpa using hv)]
      cases resto with
      | nil =>
        simp only [estadoTras, List.foldl_nil, emitidosErr, List.append_nil,
          ne_eq, not_true_eq_false, List.mem_append]
        simp [hv]
      | cons m resto2 =>
        constructor
        · rintro (h | h)
          · rcases List.mem_append.mp h with h | h
            · exact Or.inl h
            · exact Or.inr ⟨by simp, by simp [hv], List.mem_append.mpr (Or.inl h)⟩
          · exact Or.inr ⟨by simp, by simp [hv], h.2.2⟩
        · rintro (h | h)
          · exact Or.inl (List.mem_append.mpr (Or.inl h))
          · rcases List.mem_append.mp h.2.2 with h2 | h2
            · exact Or.inl (List.mem_append.mpr (Or.inr h2))
            · exact Or.inr ⟨by simp, by simp [hv], List.mem_append.mpr (Or.inr h2)⟩

theorem clasificar_preserva (st : AgentState) (ent : EntradaClasificador)
    (s2 : AgentState) (h : clasificar_pregunta st ent = .ok s2) :
    s2.pregunta_actual = st.pregunta_actual ∧ s2.memoria = st.memoria ∧
      s2.contexto_db = st.contexto_db ∧
      s2.respuesta_final = st.respuesta_final := by
  cases ent with
  | falla m =>
    simp [clasificar_pregunta] at h
    subst h; exact ⟨rfl, rfl, rfl, rfl⟩
  | texto o =>
    cases o with
    | none =>
      simp [clasificar_pregunta] at h
      subst h; exact ⟨rfl, rfl, rfl, rfl⟩
    | some v =>
      cases v with
      | nulo => simp [clasificar_pregunta] at h
      | booleano b => simp [clasificar_pregunta] at h
      | numero n => simp [clasificar_pregunta] at h
      | cadena s => simp [clasificar_pregunta] at h
      | lista xs => simp [clasificar_pregunta] at h
      | objeto campos =>
        rcases hval : validarClasificacion campos with _ | ⟨ints, t⟩
        · simp [clasificar_pregunta, hval] at h
          subst h; exact ⟨rfl, rfl, rfl, rfl⟩
        · rcases htip : tipoOperacionDesde t with _ | tipo <;>
            simp [clasificar_pregunta, hval, htip] at h <;>
            subst h <;> exact ⟨rfl, rfl, rfl, rfl⟩

theorem clasificar_errores_recuperables (st : AgentState)
    (ent : EntradaClasificador) (s2 : AgentState)
    (h : clasificar_pregunta st ent = .ok s2)
    (hno : ∀ m, ent ≠ .falla m) :
    ∀ e ∈ s2.errores, e ∈ st.errores ∨ e.recuperable = true := by
  cases ent with
  | falla m => exact absurd rfl (hno m)
  | texto o =>
    cases o with
    | none =>
      simp [clasificar_pregunta] at h
      subst h
      intro e he
      rcases List.mem_append.mp he with h2 | h2
      · exact Or.inl h2
      · simp at h2; subst h2; exact Or.inr rfl
    | some v =>
      cases v with
      | nulo => simp [clasificar_pregunta] at h
      | booleano b => simp [clasificar_pregunta] at h
      | numero n => simp [clasificar_pregunta] at h
      | cadena s => simp [clasificar_pregunta] at h
      | lista xs => simp [clasificar_pregunta] at h
      | objeto campos =>
        rcases hval : validarClasificacion campos with _ | ⟨ints, t⟩
        · simp [clasificar_pregunta, hval] at h
          subst h
          intro e he
          rcases List.mem_append.mp he with h2 | h2
          · exact Or.inl h2
          · simp at h2; subst h2; exact Or.inr rfl
        · rcases htip : tipoOperacionDesde t with _ | tipo
          · simp [clasificar_pregunta, hval, htip] at h
            subst h
            intro e he
            rcases List.mem_append.mp he with h2 | h2
            · exact Or.inl h2
            · simp at h2; subst h2; exact Or.inr rfl
          · simp [clasificar_pregunta, hval, htip] at h
            subst h
            intro e he
            exact Or.inl he

theorem aplicarDelta_memoria (st : AgentState) (d : DeltaEjecutor) :
    (aplicarDelta st d).memoria = st.memoria := rfl

theorem aplicarDelta_pregunta (st : AgentState) (d : DeltaEjecutor) :
    (aplicarDelta st d).pregunta_actual = st.pregunta_actual := rfl

theorem actualizar_memoria_cota (st : AgentState) :
    (_actualizar_memoria st).memoria.length ≤ MAX_MENSAJES_MEMORIA := by
  unfold _actualizar_memoria MAX_MENSAJES_MEMORIA
  dsimp only
  split_ifs <;> simp_all [List.length_append, List.length_drop] <;> omega

theorem generar_memoria_cota (st : AgentState) (llm : ResLLM) (n : Nat)
    (h : st.memoria.length ≤ MAX_MENSAJES_MEMORIA) :
    ((generar_respuesta st llm n).1).memoria.length ≤ MAX_MENSAJES_MEMORIA := by
  unfold generar_respuesta
  split_ifs with hs hf hn
  · exact actualizar_memoria_cota _
  · simpa using h
  · exact actualizar_memoria_cota _
  · cases llm <;> exact actualizar_memoria_cota _

theorem pipeline_memoria_cota (st : AgentState) (ent : Entradas)
    (ej : Ejecucion) (h0 : st.memoria.length ≤ MAX_MENSAJES_MEMORIA)
    (h : pipeline st ent = .ok ej) :
    ej.estado.memoria.length ≤ MAX_MENSAJES_MEMORIA := by
  unfold pipeline at h
  rcases hcl : clasificar_pregunta st ent.clasificador with m | s1
  · rw [hcl] at h; cases h
  · rw [hcl] at h
    dsimp only at h
    have hmem : s1.memoria = st.memoria :=
      (clasificar_preserva st ent.clasificador s1 hcl).2.1
    split_ifs at h <;>
      simp only [Except.ok.injEq] at h <;> subst h <;> dsimp only <;>
      refine generar_memoria_cota _ _ _ ?_
    · rw [aplicarDelta_memoria, hmem]; exact h0
    · rw [hmem]; exact h0

theorem lookup_map_actualiza (k : String) (v : List MensajeMemoria) :
    ∀ a : Almacen, (a.lookup k).isSome = true →
      ((a.map fun par => if par.1 = k then (k, v) else par).lookup k) = some v := by
  intro a
  induction a with
  | nil => intro h; simp [List.lookup] at h
  | cons p resto ih =>
    intro h
    obtain ⟨pk, pv⟩ := p
    by_cases hp : pk = k
    · subst hp
      simp [List.lookup_cons]
    · have hne : (k == pk) = false := beq_false_of_ne (Ne.symm hp)
      rw [List.map_cons]
      have hcabeza :
          (if ((pk, pv) : String × List MensajeMemoria).1 = k then (k, v)
           else (pk, pv)) = (pk, pv) := by simp [hp]
      rw [hcabeza, List.lookup_cons, hne]
      rw [List.lookup_cons, hne] at h
      exact ih h

theorem lookup_append_cola (k : String) (v : List MensajeMemoria) :
    ∀ a : Almacen, a.lookup k = none → ((a ++ [(k, v)]).lookup k) = some v := by
  intro a
  induction a with
  | nil => intro _; simp [List.lookup]
  | cons p resto ih =>
    intro h
    obtain ⟨pk, pv⟩ := p
    by_cases hp : k = pk
    · subst hp
      rw [List.lookup_cons] at h
      simp at h
    · have hne : (k == pk) = false := beq_false_of_ne hp
      rw [List.cons_append, List.lookup_cons, hne]
      rw [List.lookup_cons, hne] at h
      exact ih h

theorem lookup_asignar (a : Almacen) (k : String) (v : List MensajeMemoria) :
    (asignarClave a k v).lookup k = some v := by
  unfold asignarClave
  split_ifs with h
  · exact lookup_map_actualiza k v a h
  · refine lookup_append_cola k v a ?_
    rcases hl : a.lookup k with _ | w
    · rfl
    · rw [hl] at h; simp at h

theorem llamarBucle_saltar (resto : List Proveedor) (ultimo : Option String) :
    ∀ pre : List Proveedor, (∀ q ∈ pre, q.activo = false) →
      llamarBucle (pre ++ resto) ultimo =
        (pre ++ (llamarBucle resto ultimo).1, (llamarBucle resto ultimo).2.1,
         (llamarBucle resto ultimo).2.2) := by
  intro pre
  induction pre with
  | nil => intro _; simp only [List.nil_append]
  | cons p resto2 ih =>
    intro hpre
    have hp : p.activo = false := hpre p (by simp)
    have h2 : ∀ q ∈ resto2, q.activo = false := fun q hq => hpre q (by simp [hq])
    rw [List.cons_append]
    rw [llamarBucle]
    rw [if_neg (by simp [hp])]
    rw [ih h2]
    simp

theorem elegirSaludo_mem (n : Nat) : elegirSaludo n ∈ saludos_respuesta := by
  have h4 : n % saludos_respuesta.length < 4 := by
    have : saludos_respuesta.length = 4 := by decide
    rw [this]; exact Nat.mod_lt _ (by omega)
  have hcases : n % saludos_respuesta.length = 0 ∨
      n % saludos_respuesta.length = 1 ∨ n % saludos_respuesta.length = 2 ∨
      n % saludos_respuesta.length = 3 := by omega
  unfold elegirSaludo
  rcases hcases with h | h | h | h <;> rw [h] <;> simp [saludos_respuesta]

theorem generar_saludo (st : AgentState) (llm : ResLLM) (n : Nat)
    (hs : es_saludo st.pregunta_actual = true) :
    generar_respuesta st llm n =
      (_actualizar_memoria { st with respuesta_final := elegirSaludo n }, 0) := by
  unfold generar_respuesta
  rw [if_pos hs]

theorem generar_fatal (st : AgentState) (llm : ResLLM) (n : Nat)
    (hs : es_saludo st.pregunta_actual = false)
    (hf : tiene_error_fatal st = true) :
    generar_respuesta st llm n =
      ({ st with respuesta_final := RESPUESTA_ERROR_FATAL }, 0) := by
  unfold generar_respuesta
  rw [if_neg (by simp [hs]), if_pos hf]

theorem generar_normal_llama (st : AgentState) (llm : ResLLM) (n : Nat)
    (hs : es_saludo st.pregunta_actual = false)
    (hf : tiene_error_fatal st = false)
    (hnr : st.intenciones ≠ ["no_reconocida"]) :
    (generar_respuesta st llm n).2 = 1 := by
  unfold generar_respuesta
  rw [if_neg (by simp [hs]), if_neg (by simp [hf]), if_neg hnr]
  cases llm <;> rfl

theorem llamarBucle_paso_rl (p : Proveedor) (resto : List Proveedor)
    (ultimo : Option String) (m : String) (hact : p.activo = true)
    (hsal : p.salida = .excepcion m) (hrl : es_error_rate_limit m = true) :
    llamarBucle (p :: resto) ultimo =
      ({ p with activo := false } :: (llamarBucle resto (some m)).1,
       p.nombre :: (llamarBucle resto (some m)).2.1,
       (llamarBucle resto (some m)).2.2) := by
  rw [llamarBucle, if_pos hact, hsal]
  simp only [hrl, if_true]

theorem llamarBucle_paso_otro (p : Proveedor) (resto : List Proveedor)
    (ultimo : Option String) (m : String) (hact : p.activo = true)
    (hsal : p.salida = .excepcion m) (hrl : es_error_rate_limit m = false) :
    llamarBucle (p :: resto) ultimo =
      (p :: resto, [p.nombre],
       .error ("Error en " ++ p.nombre ++ ": " ++ m)) := by
  rw [llamarBucle, if_pos hact, hsal]
  simp only [hrl, Bool.false_eq_true, if_false]

/-! ### Claim theorems -/

/-- Claim C10: every invocation of the "conteos" fetch capability, for every
database content and connection state, appends exactly one recoverable
ErrorRecord with node "consulta_conteos" and appends no data block to
`contexto_db`: the success path of `consultar_conteos` is unreachable
because the code reads the variable `cursor`, which is never defined before
its first use, so a `NameError` is raised (or the query exception is
caught) on every path. -/
theorem c10_conteos_siempre_falla (st : AgentState) (db : ResultadoDB) :
    (∃ m, (consultar_conteos st db).errores =
        st.errores ++ [⟨"consulta_conteos", m, true⟩]) ∧
    (consultar_conteos st db).contexto_db = st.contexto_db := by
  cases db with
  | ok filas => exact ⟨⟨_, rfl⟩, rfl⟩
  | excepcion m => exact ⟨⟨_, rfl⟩, rfl⟩

/-- Claim C9: ordered provider fallback of the text-completion capability.
First clause: when the first active provider fails with a rate-limit-class
error, it is marked inactive in the returned provider list and the same
call continues with the remaining providers (carrying the error as
`last_error`). Second clause: any other failure of the attempted provider
is surfaced immediately — no further provider is attempted and no
activation flag changes. Third clause: when every active provider fails,
the call ends in an error. -/
theorem c9_fallback_proveedores :
    (∀ (pre : List Proveedor) (p : Proveedor) (resto : List Proveedor)
        (m : String), (∀ q ∈ pre, q.activo = false) → p.activo = true →
        p.salida = .excepcion m →
        (es_error_rate_limit m = true →
          llamar (pre ++ p :: resto) =
            (pre ++ { p with activo := false } :: (llamarBucle resto (some m)).1,
             p.nombre :: (llamarBucle resto (some m)).2.1,
             (llamarBucle resto (some m)).2.2)) ∧
        (es_error_rate_limit m = false →
          llamar (pre ++ p :: resto) =
            (pre ++ p :: resto, [p.nombre],
             .error ("Error en " ++ p.nombre ++ ": " ++ m)))) ∧
    (∀ (provs : List Proveedor) (ultimo : Option String),
        (∀ q ∈ provs, q.activo = true → ∃ mm, q.salida = .excepcion mm) →
        ∃ err, (llamarBucle provs ultimo).2.2 = .error err) := by
  constructor
  · intro pre p resto m hpre hact hsal
    constructor
    · intro hrl
      unfold llamar
      rw [llamarBucle_saltar (p :: resto) none pre hpre]
      rw [llamarBucle_paso_rl p resto none m hact hsal hrl]
    · intro hrl
      unfold llamar
      rw [llamarBucle_saltar (p :: resto) none pre hpre]
      rw [llamarBucle_paso_otro p resto none m hact hsal hrl]
  · intro provs
    induction provs with
    | nil => intro ultimo _; exact ⟨_, rfl⟩
    | cons p resto ih =>
      intro ultimo hfallan
      by_cases hact : p.activo = true
      · obtain ⟨m, hm⟩ := hfallan p (by simp) hact
        by_cases hrl : es_error_rate_limit m = true
        · rw [llamarBucle_paso_rl p resto ultimo m hact hm hrl]
          exact ih (some m) (fun q hq => hfallan q (by simp [hq]))
        · rw [llamarBucle_paso_otro p resto ultimo m hact hm
            (by simpa using hrl)]
          exact ⟨_, rfl⟩
      · have hp : p.activo = false := by simpa using hact
        rw [show llamarBucle (p :: resto) ultimo =
          (p :: (llamarBucle resto ultimo).1, (llamarBucle resto ultimo).2.1,
           (llamarBucle resto ultimo).2.2) from by
            rw [llamarBucle, if_neg (by simp [hp])]]
        exact ih ultimo (fun q hq => hfallan q (by simp [hq]))

/-- Witness for C9 at concrete inputs: one already-inactive provider, then
an active one failing with a quota error, then an active healthy one; and,
for the other clauses, an immediate non-quota failure and a run where every
active provider fails. -/
theorem c9_testigo :
    (llamar [⟨"muerto", false, .ok "t"⟩,
             ⟨"groq", true, .excepcion "429 quota exceeded"⟩,
             ⟨"gemini", true, .ok "texto"⟩] =
      ([⟨"muerto", false, .ok "t"⟩,
        ⟨"groq", false, .excepcion "429 quota exceeded"⟩,
        ⟨"gemini", true, .ok "texto"⟩],
       ["groq", "gemini"], .ok "texto")) ∧
    (llamar [⟨"groq", true, .excepcion "500 internal"⟩,
             ⟨"gemini", true, .ok "texto"⟩] =
      ([⟨"groq", true, .excepcion "500 internal"⟩, ⟨"gemini", true, .ok "texto"⟩],
       ["groq"], .error "Error en groq: 500 internal")) ∧
    (∃ err, (llamarBucle [⟨"groq", true, .excepcion "429 quota"⟩,
        ⟨"gemini", true, .excepcion "quota exceeded"⟩] none).2.2 = .error err) := by
  refine ⟨?_, ?_, ?_⟩
  · exact (c9_fallback_proveedores.1 [⟨"muerto", false, .ok "t"⟩]
      ⟨"groq", true, .excepcion "429 quota exceeded"⟩
      [⟨"gemini", true, .ok "texto"⟩] "429 quota exceeded"
      (by decide) rfl rfl).1 (by decide)
  · exact (c9_fallback_proveedores.1 []
      ⟨"groq", true, .excepcion "500 internal"⟩
      [⟨"gemini", true, .ok "texto"⟩] "500 internal"
      (by decide) rfl rfl).2 (by decide)
  · exact c9_fallback_proveedores.2 _ none (by
      intro q hq hact
      fin_cases hq <;> exact ⟨_, rfl⟩)

/-- Claim C4 counterexample: a model reply whose `intenciones` field is the
empty list passes Pydantic validation (`list[str]` has no non-emptiness
constraint), so the classifier assigns the empty list and records no error
— contrary to the claim, which requires categories to be set to
`["no_reconocida"]` with a recoverable error whenever `categories` is not a
non-empty sequence of strings. -/
theorem c4_contraejemplo :
    (estadoClasificadorDe (clasificar_pregunta {}
        (.texto (some (.objeto [("intenciones", .lista []),
          ("tipo_operacion", .cadena "lectura")]))))).intenciones = [] ∧
    (estadoClasificadorDe (clasificar_pregunta {}
        (.texto (some (.objeto [("intenciones", .lista []),
          ("tipo_operacion", .cadena "lectura")]))))).errores = [] :=
  ⟨rfl, rfl⟩

/-- Claim C4 (amended): the classifier contract as implemented. A total
text-completion failure appends a fatal classifier record and leaves
`intenciones` untouched (empty in a fresh request); an unparseable reply,
a reply failing schema validation, or an unknown `tipo_operacion` literal
sets `intenciones := ["no_reconocida"]` and appends one recoverable
classifier record; a reply whose `intenciones` is any sequence of strings
— including the empty sequence — with a known operation literal is
assigned as-is with no error. The last conjunct records that the empty
category list does pass validation. -/
theorem c4_contrato_clasificador :
    (∀ (st : AgentState) (m : String),
        clasificar_pregunta st (.falla m) =
          .ok { st with errores := st.errores ++ [⟨"clasificador", m, false⟩] }) ∧
    (∀ st : AgentState,
        clasificar_pregunta st (.texto none) =
          .ok { st with
            intenciones := ["no_reconocida"],
            errores := st.errores ++
              [⟨"clasificador",
                "El modelo no retornó JSON válido en la clasificación", true⟩] }) ∧
    (∀ (st : AgentState) (campos : List (String × JVal)),
        validarClasificacion campos = none →
        ∃ e : RegistroError, e.nodo = "clasificador" ∧ e.recuperable = true ∧
          clasificar_pregunta st (.texto (some (.objeto campos))) =
            .ok { st with
              intenciones := ["no_reconocida"],
              errores := st.errores ++ [e] }) ∧
    (∀ (st : AgentState) (campos : List (String × JVal)) (ints : List String)
        (t : String), validarClasificacion campos = some (ints, t) →
        tipoOperacionDesde t = none →
        ∃ e : RegistroError, e.nodo = "clasificador" ∧ e.recuperable = true ∧
          clasificar_pregunta st (.texto (some (.objeto campos))) =
            .ok { st with
              intenciones := ["no_reconocida"],
              errores := st.errores ++ [e] }) ∧
    (∀ (st : AgentState) (campos : List (String × JVal)) (ints : List String)
        (t : String) (tipo : TipoOperacion),
        validarClasificacion campos = some (ints, t) →
        tipoOperacionDesde t = some tipo →
        clasificar_pregunta st (.texto (some (.objeto campos))) =
          .ok { st with
            intenciones := ints, tipo_operacion := tipo }) ∧
    validarClasificacion
      [("intenciones", .lista []), ("tipo_operacion", .cadena "lectura")] =
        some ([], "lectura") := by
  refine ⟨fun st m => rfl, fun st => rfl, ?_, ?_, ?_, rfl⟩
  · intro st campos h
    exact ⟨⟨"clasificador", "Estructura de clasificación inválida", true⟩,
      rfl, rfl, by simp [clasificar_pregunta, h]⟩
  · intro st campos ints t h1 h2
    exact ⟨⟨"clasificador",
      "Error procesando clasificación: tipo de operación no reconocido", true⟩,
      rfl, rfl, by simp [clasificar_pregunta, h1, h2]⟩
  · intro st campos ints t tipo h1 h2
    simp [clasificar_pregunta, h1, h2]

/-- Witness for C4 at concrete inputs: a reply that is a JSON object
without the required fields (validation failure), a reply with an unknown
operation literal, and a valid reply carrying one category. -/
theorem c4_testigo :
    (∃ e : RegistroError, e.nodo = "clasificador" ∧ e.recuperable = true ∧
      clasificar_pregunta {} (.texto (some (.objeto []))) =
        .ok { ({} : AgentState) with
          intenciones := ["no_reconocida"],
          errores := ({} : AgentState).errores ++ [e] }) ∧
    (∃ e : RegistroError, e.nodo = "clasificador" ∧ e.recuperable = true ∧
      clasificar_pregunta {} (.texto (some (.objeto
          [("intenciones", .lista [.cadena "inventario"]),
           ("tipo_operacion", .cadena "volar")]))) =
        .ok { ({} : AgentState) with
          intenciones := ["no_reconocida"],
          errores := ({} : AgentState).errores ++ [e] }) ∧
    clasificar_pregunta {} (.texto (some (.objeto
        [("intenciones", .lista [.cadena "inventario"]),
         ("tipo_operacion", .cadena "lectura")]))) =
      .ok { ({} : AgentState) with
        intenciones := ["inventario"],
        tipo_operacion := .lectura } :=
  ⟨c4_contrato_clasificador.2.2.1 {} [] rfl,
   c4_contrato_clasificador.2.2.2.1 {} _ ["inventario"] "volar" rfl rfl,
   c4_contrato_clasificador.2.2.2.2.1 {} _ ["inventario"] "lectura" .lectura rfl rfl⟩

/-- Claim C6 counterexample: a dispatch over `["inventario",
"categoria_falsa"]` where `inventario` is mapped and runs. The claim
requires one aggregate recoverable error listing the unmapped
`categoria_falsa`; the executor records no error at all — unmapped
categories are dropped silently whenever at least one category is mapped. -/
theorem c6_contraejemplo :
    erroresTrasEjecutor
      { intenciones := ["inventario", "categoria_falsa"] }
      (fun _ => .ok [[("cantidad", "1")]]) = [] :=
  rfl

/-- Claim C6 (amended): the aggregate recoverable error (whose message
lists all the detected categories) is appended exactly when NO category is
mapped to a registered tool; when at least one category is mapped, the
unmapped categories are dropped silently and the executor itself appends
no record (every recorded error is pre-existing or comes from a tool, not
from the `ejecutor_consultas` aggregate). -/
theorem c6_agregado_solo_sin_mapeadas (st : AgentState)
    (db : String → ResultadoDB)
    (hfatal : tiene_error_fatal st = false)
    (hnr : st.intenciones ≠ ["no_reconocida"]) :
    ((st.intenciones.filter (fun i => (HERRAMIENTAS i).isSome)) = [] →
      erroresTrasEjecutor st db = st.errores ++
        [⟨"ejecutor_consultas",
          "No hay herramientas para las intenciones detectadas: " ++
            reprListaPython st.intenciones, true⟩]) ∧
    ((st.intenciones.filter (fun i => (HERRAMIENTAS i).isSome)) ≠ [] →
      ∀ e ∈ erroresTrasEjecutor st db, e ∈ st.errores ∨
        e.nodo ≠ "ejecutor_consultas") := by
  unfold erroresTrasEjecutor ejecutar_consultas aplicarDelta
  rw [if_neg (by simp [hfatal]), if_neg hnr]
  constructor
  · intro hvacio
    rw [if_pos (by simp [hvacio])]
    rfl
  · intro hnovacio
    rw [if_neg (by simpa using hnovacio)]
    intro e he
    simp only [Option.getD_some] at he
    rw [bucle_errores_mem] at he
    rcases he with he | ⟨_, _, he⟩
    · exact Or.inl he
    · rw [estadoTras_errores] at he
      rcases List.mem_append.mp he with he | he
      · exact Or.inl he
      · obtain ⟨n, _, hn⟩ := emitidosErr_origen db _ e he
        obtain ⟨_, hnodo, _⟩ := registroEmitido_forma n (db n) e hn
        refine Or.inr ?_
        rw [hnodo]
        exact distinto_por_prefijo "consulta_" n "ejecutor_consultas" 'c'
          (by decide) (by decide)

/-- Witness for C6: with no mapped category the single aggregate record is
appended; with a mapped category the only recorded error is the tool's own
(`consulta_inventario`), not an `ejecutor_consultas` aggregate. -/
theorem c6_testigo :
    (erroresTrasEjecutor { intenciones := ["categoria_falsa"] }
        (fun _ => .ok []) =
      ({ intenciones := ["categoria_falsa"] } : AgentState).errores ++
        [⟨"ejecutor_consultas",
          "No hay herramientas para las intenciones detectadas: " ++
            reprListaPython ["categoria_falsa"], true⟩]) ∧
    ((⟨"consulta_inventario", "Error consultando inventario: caida", true⟩ :
        RegistroError) ∈
          ({ intenciones := ["inventario"] } : AgentState).errores ∨
      (⟨"consulta_inventario", "Error consultando inventario: caida", true⟩ :
        RegistroError).nodo ≠ "ejecutor_consultas") :=
  ⟨(c6_agregado_solo_sin_mapeadas { intenciones := ["categoria_falsa"] }
      (fun _ => .ok []) rfl (by decide)).1 rfl,
   (c6_agregado_solo_sin_mapeadas { intenciones := ["inventario"] }
      (fun _ => .excepcion "caida") rfl (by decide)).2 (by decide)
     ⟨"consulta_inventario", "Error consultando inventario: caida", true⟩
     (by decide)⟩

/-- Claim C7 counterexample: a dispatch over `["inventario"]` whose only
fetch fails: after all fetches `contexto_db` is empty, yet the only
recorded error is the fetch's own record — no additional
`ErrorRecord{stage: "query_dispatcher", message: "no category returned
data"}` is appended; no such post-condition check exists in
`ejecutar_consultas`. -/
theorem c7_contraejemplo :
    contextoTrasEjecutor { intenciones := ["inventario"] }
        (fun _ => .excepcion "caida") = [] ∧
    erroresTrasEjecutor { intenciones := ["inventario"] }
        (fun _ => .excepcion "caida") =
      [⟨"consulta_inventario", "Error consultando inventario: caida", true⟩] :=
  ⟨rfl, rfl⟩

/-- Claim C7 (amended): the executor never appends a record with message
"no category returned data" — when `contexto_db` ends up empty the returned
errors are exactly the accumulated ones (the response generator instead
renders a fixed "no data" line in its prompt context). -/
theorem c7_sin_registro_sin_datos (st : AgentState)
    (db : String → ResultadoDB)
    (h0 : ∀ e ∈ st.errores, e.mensaje ≠ "no category returned data") :
    ∀ e ∈ erroresTrasEjecutor st db,
      e.mensaje ≠ "no category returned data" := by
  intro e he
  unfold erroresTrasEjecutor ejecutar_consultas aplicarDelta at he
  by_cases hfatal : tiene_error_fatal st = true
  · rw [if_pos hfatal] at he
    exact h0 e he
  · rw [if_neg hfatal] at he
    by_cases hnr : st.intenciones = ["no_reconocida"]
    · rw [if_pos hnr] at he
      exact h0 e he
    · rw [if_neg hnr] at he
      by_cases hvacio :
          (st.intenciones.filter (fun i => (HERRAMIENTAS i).isSome)).isEmpty
      · rw [if_pos hvacio] at he
        simp only [Option.getD_some] at he
        rcases List.mem_append.mp he with he | he
        · exact h0 e he
        · simp only [List.mem_singleton] at he
          subst he
          exact distinto_por_prefijo "No hay herramientas para las intenciones detectadas: "
            (reprListaPython st.intenciones) "no category returned data" 'N'
            (by decide) (by decide)
      · rw [if_neg hvacio] at he
        simp only [Option.getD_some] at he
        rw [bucle_errores_mem] at he
        rcases he with he | ⟨_, _, he⟩
        · exact h0 e he
        · rw [estadoTras_errores] at he
          rcases List.mem_append.mp he with he | he
          · exact h0 e he
          · obtain ⟨n, _, hn⟩ := emitidosErr_origen db _ e he
            obtain ⟨_, _, m, hm⟩ := registroEmitido_forma n (db n) e hn
            rw [hm]
            exact distinto_por_prefijo "Error consultando " m
              "no category returned data" 'E' (by decide) (by decide)

/-- Witness for C7: the failing-fetch record produced in the
counterexample scenario indeed does not carry the claimed signal message. -/
theorem c7_testigo :
    (⟨"consulta_inventario", "Error consultando inventario: caida", true⟩ :
        RegistroError).mensaje ≠ "no category returned data" :=
  c7_sin_registro_sin_datos { intenciones := ["inventario"] }
    (fun _ => .excepcion "caida") (by simp)
    ⟨"consulta_inventario", "Error consultando inventario: caida", true⟩
    (by decide)

/-- Shared failing scenario for the fan-out merge defect: the `garantias`
fetch raises while the `inventario` fetch succeeds with one row. -/
def dbMixta : String → ResultadoDB :=
  fun n => if n = "garantias" then .excepcion "boom"
           else .ok [[("cantidad", "1")]]

/-- The single error the failing `garantias` fetch emits under `dbMixta`. -/
def registroGarantiasCaida : RegistroError :=
  ⟨"consulta_garantias", "Error consultando garantías: boom", true⟩

/-- The single block the succeeding `inventario` fetch emits under
`dbMixta`. -/
def bloqueInventarioPrueba : Bloque :=
  ⟨"inventario", [[("cantidad", "1")]]⟩

/-- Claim C1: a full request in which the classifier succeeds with
categories `["garantias", "inventario"]`, the `garantias` fetch emits
exactly one error, the `inventario` fetch and the answer synthesis emit
none — yet the final container holds that one record twice. The defect:
each tool mutates and returns the same shared state object, and the
executor extends `errores_acumulados` with the tool's entire current error
list, so the error emitted by the first tool is re-appended when the
second tool returns. Emissions per fetch are measured by `emitidosErr`
(a tool run on a fresh state). -/
theorem c1_duplicacion_errores :
    (estadoDe (pipeline { pregunta_actual := "dame el stock y las garantias" }
      { clasificador := clasificacionDe ["garantias", "inventario"],
        db := dbMixta, generador := .ok "respuesta generada",
        eleccion := 0 })).errores =
      [registroGarantiasCaida, registroGarantiasCaida] ∧
    (emitidosErr dbMixta ["garantias", "inventario"]).length = 1 ∧
    (estadoClasificadorDe (clasificar_pregunta
      { pregunta_actual := "dame el stock y las garantias" }
      (clasificacionDe ["garantias", "inventario"]))).errores = [] :=
  ⟨rfl, rfl, rfl⟩

/-- Claim C2: a dispatch over N = 2 mapped categories
(`["inventario", "garantias"]`) in which exactly the `garantias` fetch
fails and `inventario` succeeds. Exactly one recoverable error is recorded
for the failing category, but the successful `inventario` contribution
appears twice in the final `contexto_db` instead of exactly once: the
executor extends `contexto_acumulado` with the shared state's entire
current `contexto_db` after each tool, so the block contributed before the
failing fetch ran is duplicated. (With the opposite order the block appears
once but the error is duplicated, so no order satisfies the claim.) -/
theorem c2_duplicacion_bloques :
    (estadoDe (pipeline { pregunta_actual := "dame el stock y las garantias" }
      { clasificador := clasificacionDe ["inventario", "garantias"],
        db := dbMixta, generador := .ok "respuesta generada",
        eleccion := 0 })).contexto_db =
      [bloqueInventarioPrueba, bloqueInventarioPrueba] ∧
    (estadoDe (pipeline { pregunta_actual := "dame el stock y las garantias" }
      { clasificador := clasificacionDe ["inventario", "garantias"],
        db := dbMixta, generador := .ok "respuesta generada",
        eleccion := 0 })).errores = [registroGarantiasCaida] ∧
    (emitidosCtx dbMixta ["inventario", "garantias"]).length = 1 :=
  ⟨rfl, rfl, rfl⟩

/-- Oracle bundle with a fatally failing classifier call, used by the C3
and C5 scenarios. -/
def entradasFatalPrueba : Entradas :=
  { clasificador := .falla "Gemini API error", db := fun _ => .ok [],
    generador := .ok "x", eleccion := 0 }

/-- Claim C3 counterexample: the question "hola" with a fatal classifier
error. The greeting branch of `generar_respuesta` runs before the
fatal-error branch, so the final answer is a greeting variant — not the
fixed apology — and two turns are appended to the history. -/
theorem c3_contraejemplo :
    (estadoDe (pipeline { pregunta_actual := "hola" }
        entradasFatalPrueba)).respuesta_final ≠ RESPUESTA_ERROR_FATAL ∧
    (estadoDe (pipeline { pregunta_actual := "hola" }
        entradasFatalPrueba)).memoria ≠ [] := by
  exact ⟨by decide, by decide⟩

/-- Claim C3 (amended): when the classifier records a fatal error AND the
question is not a greeting, the query dispatcher is never invoked (zero
data-fetch calls), the final answer equals the fixed apology string, and
the history is unchanged. (When the question is a greeting, the greeting
short-circuit takes priority over the fatal branch.) -/
theorem c3_corto_circuito_fatal (st : AgentState) (ent : Entradas)
    (m : String) (hent : ent.clasificador = .falla m)
    (hsaludo : es_saludo st.pregunta_actual = false) :
    ∃ ej, pipeline st ent = .ok ej ∧ ej.llamadasFetch = 0 ∧
      ej.estado.respuesta_final = RESPUESTA_ERROR_FATAL ∧
      ej.estado.memoria = st.memoria := by
  obtain ⟨clas, db, gen, elec⟩ := ent
  simp only at hent
  subst hent
  have hcl : clasificar_pregunta st (.falla m) =
      .ok { st with errores := st.errores ++ [⟨"clasificador", m, false⟩] } := rfl
  have hfatal : tiene_error_fatal
      { st with errores := st.errores ++ [⟨"clasificador", m, false⟩] } = true := by
    simp [tiene_error_fatal, List.any_append]
  unfold pipeline
  rw [hcl]
  dsimp only
  rw [if_neg (by simp [decidir_despues_de_clasificador, hfatal])]
  rw [generar_fatal _ _ _ (by simpa using hsaludo) hfatal]
  exact ⟨_, rfl, rfl, rfl, rfl⟩

/-- Witness for C3: a non-greeting question with a fatal classifier error
yields the apology, no fetch calls and an unchanged (empty) history. -/
theorem c3_testigo :
    ∃ ej, pipeline { pregunta_actual := "cual es el stock de filtros" }
        entradasFatalPrueba = .ok ej ∧
      ej.llamadasFetch = 0 ∧
      ej.estado.respuesta_final = RESPUESTA_ERROR_FATAL ∧
      ej.estado.memoria =
        ({ pregunta_actual := "cual es el stock de filtros" } : AgentState).memoria :=
  c3_corto_circuito_fatal { pregunta_actual := "cual es el stock de filtros" }
    entradasFatalPrueba "Gemini API error" rfl (by decide)

theorem clasificar_exito (st : AgentState) (ent : EntradaClasificador)
    (hok : sinReventar ent = true) :
    ∃ s1, clasificar_pregunta st ent = .ok s1 := by
  cases ent with
  | falla m => exact ⟨_, rfl⟩
  | texto o =>
    cases o with
    | none => exact ⟨_, rfl⟩
    | some v =>
      cases v with
      | objeto campos =>
        rcases hval : validarClasificacion campos with _ | ⟨ints, t⟩
        · exact ⟨_, by simp only [clasificar_pregunta, hval]; rfl⟩
        · rcases htip : tipoOperacionDesde t with _ | tipo
          · exact ⟨_, by simp only [clasificar_pregunta, hval, htip]; rfl⟩
          · exact ⟨_, by simp only [clasificar_pregunta, hval, htip]; rfl⟩
      | nulo => simp [sinReventar] at hok
      | booleano b => simp [sinReventar] at hok
      | numero n => simp [sinReventar] at hok
      | cadena s => simp [sinReventar] at hok
      | lista xs => simp [sinReventar] at hok

theorem pipeline_saludo (st : AgentState) (ent : Entradas)
    (hs : es_saludo st.pregunta_actual = true)
    (hok : sinReventar ent.clasificador = true) :
    ∃ ej, pipeline st ent = .ok ej ∧ ej.llamadasLLMClasificador = 1 ∧
      ej.llamadasLLMGenerador = 0 ∧
      ej.estado.respuesta_final = elegirSaludo ent.eleccion := by
  obtain ⟨s1, hs1⟩ := clasificar_exito st ent.clasificador hok
  have hpreg : s1.pregunta_actual = st.pregunta_actual :=
    (clasificar_preserva st ent.clasificador s1 hs1).1
  unfold pipeline
  rw [hs1]
  dsimp only
  split_ifs with hdec
  · rw [generar_saludo _ _ _ (by rw [aplicarDelta_pregunta, hpreg]; exact hs)]
    exact ⟨_, rfl, rfl, rfl, rfl⟩
  · rw [generar_saludo _ _ _ (by rw [hpreg]; exact hs)]
    exact ⟨_, rfl, rfl, rfl, rfl⟩

theorem hola_es_saludo : es_saludo "hola" = true := by decide

/-- Oracle bundle for the C5 counterexample: the classifier call returns
unparseable text; no other capability is exercised. -/
def entradasPruebaC5 : Entradas :=
  { clasificador := .texto none, db := fun _ => .ok [],
    generador := .ok "x", eleccion := 0 }

/-- Claim C5 counterexample: on the input "hola" the pipeline makes exactly
one text-completion call — the Classifier stage always calls the capability
before the greeting short-circuit (which lives in the Response Synthesizer)
is ever consulted — contradicting "never calls the text-completion
capability". -/
theorem c5_contraejemplo :
    llmClasificadorDe (pipeline { pregunta_actual := "hola" }
        entradasPruebaC5) +
      llmGeneradorDe (pipeline { pregunta_actual := "hola" }
        entradasPruebaC5) = 1 :=
  rfl

/-- Claim C5 (amended): for the input "hola" the Response Synthesizer never
calls the text-completion capability and the final answer is one of the 4
pre-registered greeting variants, but the Classifier stage still makes its
one call; the input "hola cuantos repuestos hay en bodega" (6 tokens) does
not take the greeting short-circuit and follows the normal classification
path, on which the synthesizer does call the capability (and the mapped
fetch runs). -/
theorem c5_saludo_corto_circuito :
    (∀ (mem : List MensajeMemoria) (ent : Entradas),
        sinReventar ent.clasificador = true →
        ∃ ej, pipeline { pregunta_actual := "hola", memoria := mem } ent =
            .ok ej ∧
          ej.llamadasLLMClasificador = 1 ∧ ej.llamadasLLMGenerador = 0 ∧
          ej.estado.respuesta_final ∈ saludos_respuesta) ∧
    es_saludo "hola cuantos repuestos hay en bodega" = false ∧
    (llmGeneradorDe (pipeline
        { pregunta_actual := "hola cuantos repuestos hay en bodega" }
        { clasificador := clasificacionDe ["inventario"],
          db := fun _ => .ok [[("cantidad", "1")]],
          generador := .ok "respuesta", eleccion := 0 }) = 1 ∧
      fetchLlamadasDe (pipeline
        { pregunta_actual := "hola cuantos repuestos hay en bodega" }
        { clasificador := clasificacionDe ["inventario"],
          db := fun _ => .ok [[("cantidad", "1")]],
          generador := .ok "respuesta", eleccion := 0 }) = 1) := by
  refine ⟨?_, by decide, rfl, rfl⟩
  intro mem ent hok
  obtain ⟨ej, h1, h2, h3, h4⟩ :=
    pipeline_saludo { pregunta_actual := "hola", memoria := mem } ent
      hola_es_saludo hok
  exact ⟨ej, h1, h2, h3, h4 ▸ elegirSaludo_mem ent.eleccion⟩

/-- Witness for C5: the first clause instantiated on an empty history and
the counterexample oracle bundle. -/
theorem c5_testigo :
    ∃ ej, pipeline { pregunta_actual := "hola", memoria := [] }
        entradasPruebaC5 = .ok ej ∧
      ej.llamadasLLMClasificador = 1 ∧ ej.llamadasLLMGenerador = 0 ∧
      ej.estado.respuesta_final ∈ saludos_respuesta :=
  c5_saludo_corto_circuito.1 [] entradasPruebaC5 rfl

/-- Claim C8: session round-trip continuity. A request sent with
`session_id = none` is served under a freshly minted non-empty id `fresh`
(the uuid oracle; `hfree`/`hne` state its freshness and non-emptiness);
the response echoes that id; the store then maps it to the request's final
history; and a follow-up request replaying exactly that id is seeded with
precisely that history, which is bounded by N = 10. -/
theorem c8_continuidad_sesion (almacen : Almacen) (preg : String)
    (ent : Entradas) (fresh otro : String) (ej : Ejecucion)
    (hfree : almacen.lookup fresh = none) (hne : fresh ≠ "")
    (hq : recortar preg ≠ "")
    (hpipe : pipeline { pregunta_actual := recortar preg, memoria := [] } ent =
      .ok ej) :
    ∃ resp1 almacen1,
      procesar_pregunta almacen ⟨preg, none⟩ ent fresh = .ok (resp1, almacen1) ∧
      resp1.session_id = fresh ∧
      almacen1.lookup fresh = some ej.estado.memoria ∧
      obtener_memoria_sesion almacen1 (some fresh) otro =
        (fresh, ej.estado.memoria, almacen1) ∧
      ej.estado.memoria.length ≤ MAX_MENSAJES_MEMORIA := by
  unfold procesar_pregunta
  rw [if_neg hq]
  dsimp only [obtener_memoria_sesion, crearSesion]
  rw [hpipe]
  refine ⟨_, _, rfl, rfl, ?_, ?_, ?_⟩
  · exact lookup_asignar _ fresh ej.estado.memoria
  · have hl : (guardar_memoria_sesion
        (if (asignarClave almacen fresh []).length > MAX_SESIONES then
          (asignarClave almacen fresh []).drop
            ((asignarClave almacen fresh []).length - MAX_SESIONES)
         else asignarClave almacen fresh []) fresh
        ej.estado.memoria).lookup fresh = some ej.estado.memoria :=
      lookup_asignar _ fresh ej.estado.memoria
    rw [if_pos (by simp [hne, hl])]
    rw [hl]
    rfl
  · exact pipeline_memoria_cota _ _ _ (by simp) hpipe

/-- The graph run of the C8 witness scenario: unparseable classifier reply
on the question "que hay", ending in the fixed clarification answer with
two turns appended. -/
def ejPruebaC8 : Ejecucion :=
  ⟨{ pregunta_actual := "que hay",
     memoria := [⟨"usuario", "que hay"⟩, ⟨"agente", RESPUESTA_NO_RECONOCIDA⟩],
     intenciones := ["no_reconocida"],
     errores := [⟨"clasificador",
       "El modelo no retornó JSON válido en la clasificación", true⟩],
     respuesta_final := RESPUESTA_NO_RECONOCIDA }, 0, 1, 0⟩

/-- Witness for C8 on a concrete two-request exchange against an empty
store. -/
theorem c8_testigo :
    ∃ resp1 almacen1,
      procesar_pregunta [] ⟨"que hay", none⟩ entradasPruebaC5 "id-1" =
        .ok (resp1, almacen1) ∧
      resp1.session_id = "id-1" ∧
      almacen1.lookup "id-1" = some ejPruebaC8.estado.memoria ∧
      obtener_memoria_sesion almacen1 (some "id-1") "id-2" =
        ("id-1", ejPruebaC8.estado.memoria, almacen1) ∧
      ejPruebaC8.estado.memoria.length ≤ MAX_MENSAJES_MEMORIA :=
  c8_continuidad_sesion [] "que hay" entradasPruebaC5 "id-1" "id-2" ejPruebaC8
    rfl (by decide) (by decide) (by rfl)
